import Mathlib

/-!
A shallow embedding of the Webflow form-validation module
(`src/utils/validateForm.ts`) together with the earlier revision of the same
module that still ships in the repository (the `_alt` definitions below).

Pure validation rules become Lean functions on strings.  The DOM state the
module reads and mutates (the input element inside a field wrapper, the
`.w-checkbox-input` visual element, the `.input-error-label` element, the
submit button) becomes explicit records, and every DOM-mutating function
becomes a state transformer returning the updated record.

Modelling conventions:
* a JavaScript `NaN` arising from `parseInt` is modelled as `none : Option Int`
  (every numeric comparison with `NaN` is false, matching the `none` branches);
* class lists are modelled by one boolean per class the module ever toggles;
* string length is code points, which coincides with JS `length` on the
  ASCII values used throughout;
* regular expressions are compiled by hand into deterministic matchers; the
  compilation is noted at each definition.
-/

namespace FormValidation

/-- ASCII JavaScript whitespace, as used by `trim`, `\s` and `parseInt`. -/
def isJsWhitespace (c : Char) : Bool :=
  c == ' ' || c == '\t' || c == '\n' || c == '\r' || c == '\x0b' || c == '\x0c'

/-- JS `String.prototype.trim`: drop whitespace from both ends. -/
def jsTrim (s : String) : String :=
  String.mk (((s.data.dropWhile isJsWhitespace).reverse.dropWhile isJsWhitespace).reverse)

/-- `validateLength` (current revision): `input.value.trim().length > minLength`.
`minLength = none` models `NaN`: any `>` comparison with `NaN` is false. -/
def validateLength (value : String) (minLength : Option Int) : Bool :=
  match minLength with
  | some m => decide (m < ((jsTrim value).length : Int))
  | none => false

/-- `validateLength` of the earlier revision (`part_000`):
`input.value.trim().length >= minLength`, `none` again modelling `NaN`. -/
def validateLength_alt (value : String) (minLength : Option Int) : Bool :=
  match minLength with
  | some m => decide (m ≤ ((jsTrim value).length : Int))
  | none => false

/-- Number of decimal-digit characters of a value; this is the length of
`value.replace(/\D/g, '')`. -/
def digitCount (value : String) : Nat :=
  (value.data.filter Char.isDigit).length

/-- `validatePhone` (current revision): strip every non-digit character and
require at least 10 remaining digits. -/
def validatePhone (value : String) : Bool :=
  decide (10 ≤ digitCount value)

/-- Character class `[-\s.]` of the earlier revision's phone regex. -/
def isSepChar (c : Char) : Bool :=
  c == '-' || isJsWhitespace c || c == '.'

/-- Consume one optional character matching `p` (regex `X?`).  All optional
classes of the phone regex are disjoint from what follows them, so this
greedy step agrees with backtracking semantics. -/
def skipOpt (p : Char → Bool) : List Char → List Char
  | [] => []
  | c :: rest => if p c then rest else c :: rest

/-- Consume exactly `n` decimal digits (regex `[0-9]{n}`); `none` on failure. -/
def takeDigitsN : Nat → List Char → Option (List Char)
  | 0, cs => some cs
  | _ + 1, [] => none
  | n + 1, c :: cs => if c.isDigit then takeDigitsN n cs else none

/-- `validatePhone` of the earlier revision (`part_000`): the regex
`^[+]?[(]?[0-9]{3}[)]?[-\s.]?[0-9]{3}[-\s.]?[0-9]{4,6}$` tested against the
trimmed value, compiled into a deterministic matcher (the trailing
`[0-9]{4,6}$` becomes: the rest is all digits with length between 4 and 6). -/
def validatePhone_alt (value : String) : Bool :=
  let cs0 := (jsTrim value).data
  let cs1 := skipOpt (fun c => c == '+') cs0
  let cs2 := skipOpt (fun c => c == '(') cs1
  match takeDigitsN 3 cs2 with
  | none => false
  | some cs3 =>
    let cs4 := skipOpt (fun c => c == ')') cs3
    let cs5 := skipOpt isSepChar cs4
    match takeDigitsN 3 cs5 with
    | none => false
    | some cs6 =>
      let cs7 := skipOpt isSepChar cs6
      cs7.all Char.isDigit && decide (4 ≤ cs7.length) && decide (cs7.length ≤ 6)

/-- Character class `[^\s@]` of the email regex. -/
def isEmailChar (c : Char) : Bool :=
  !isJsWhitespace c && !(c == '@')

/-- `validateEmail` (identical in both revisions): the regex
`^[^\s@]+@[^\s@]+\.[^\s@]+$` tested against the trimmed value.  The first
`[^\s@]+` is a maximal munch (its class excludes the mandatory `@`); after the
`@`, matching `[^\s@]+\.[^\s@]+$` means: the remainder is all `[^\s@]` and
contains a dot that is neither its first nor its last character. -/
def validateEmail (value : String) : Bool :=
  let cs := (jsTrim value).data
  match cs.dropWhile isEmailChar with
  | '@' :: r =>
      !(cs.takeWhile isEmailChar).isEmpty && r.all isEmailChar &&
        ((r.drop 1).dropLast.contains '.')
  | _ => false

/-- The input (or textarea) element inside a field wrapper: its live value and
type, native checked state, the constraint attributes the module reads,
the `data-touched` attribute, and the `is-error` class. -/
structure Input where
  value : String
  type : String
  checked : Bool
  lengthAttr : Option String
  phoneAttr : Bool
  checkboxAttr : Bool
  touched : Bool
  hasErrorClass : Bool
deriving DecidableEq

/-- `validateCheckbox` (current revision): `input.checked`. -/
def validateCheckbox (input : Input) : Bool :=
  input.checked

/-- Digit value of a decimal digit character. -/
def digitVal (c : Char) : Nat :=
  c.toNat - ('0').toNat

/-- Decimal value of a digit string. -/
def digitsToNat (cs : List Char) : Nat :=
  cs.foldl (fun acc c => acc * 10 + digitVal c) 0

/-- Value of the maximal leading run of digits; `none` when there is none. -/
def parseLeadingDigits (cs : List Char) : Option Nat :=
  let ds := cs.takeWhile Char.isDigit
  if ds.isEmpty then none else some (digitsToNat ds)

/-- JS `parseInt(s, 10)`: skip leading whitespace, read an optional sign and
then a maximal run of decimal digits; `none` models the `NaN` result. -/
def jsParseInt10 (s : String) : Option Int :=
  match s.data.dropWhile isJsWhitespace with
  | '-' :: rest => (parseLeadingDigits rest).map (fun n => -(n : Int))
  | '+' :: rest => (parseLeadingDigits rest).map (fun n => (n : Int))
  | cs => (parseLeadingDigits cs).map (fun n => (n : Int))

/-- `getAttribute('input-validation-length') || '0'`: a missing attribute
(`null`) and an empty attribute value are both falsy and fall back to `'0'`. -/
def attrOrZero : Option String → String
  | some s => if s == "" then ("0") else s
  | none => ("0")

/-- The `.w-checkbox-input` visual element of a checkbox wrapper. -/
structure CheckboxEl where
  hasErrorClass : Bool
deriving DecidableEq

/-- The `.input-error-label` element: its display state, the
`input-error-text` attribute of its inner text element when that element is
present, and the current text content. -/
structure ErrorLabel where
  visible : Bool
  textAttr : Option String
  text : String
deriving DecidableEq

/-- A `.input-wrapper` element: optional input/textarea, optional
`.w-checkbox-input` visual element, optional error label. -/
structure Wrapper where
  input : Option Input
  checkboxEl : Option CheckboxEl
  errorLabel : Option ErrorLabel
deriving DecidableEq

/-- Which element `showError` / `hideError` receive: the input itself, or the
checkbox visual element (`checkbox || input` in the caller). -/
inductive ErrTarget
  | field
  | checkboxVisual
deriving DecidableEq

/-- Toggle the `is-error` class on the wrapper's input element. -/
def setInputErr (w : Wrapper) (b : Bool) : Wrapper :=
  { w with input := w.input.map (fun i => { i with hasErrorClass := b }) }

/-- Toggle the `is-error` class on the wrapper's checkbox visual element. -/
def setCheckboxErr (w : Wrapper) (b : Bool) : Wrapper :=
  { w with checkboxEl := w.checkboxEl.map (fun cb => { cb with hasErrorClass := b }) }

/-- Toggle the `is-error` class on the given target element. -/
def setTargetErr (w : Wrapper) (t : ErrTarget) (b : Bool) : Wrapper :=
  match t with
  | .field => setInputErr w b
  | .checkboxVisual => setCheckboxErr w b

/-- The custom-error-text step of `showError`: when the label contains an
element carrying `input-error-text` with a truthy (non-empty) value, copy it
into the text content. -/
def applyCustomText (lbl : ErrorLabel) : ErrorLabel :=
  match lbl.textAttr with
  | some t => if t == "" then lbl else { lbl with text := t }
  | none => lbl

/-- `showError(wrapper, element)`: add `is-error` to the element; when an
error label is present, substitute the custom text and set `display: flex`. -/
def showError (w : Wrapper) (t : ErrTarget) : Wrapper :=
  let w1 := setTargetErr w t true
  match w1.errorLabel with
  | some lbl => { w1 with errorLabel := some { applyCustomText lbl with visible := true } }
  | none => w1

/-- `hideError(wrapper, element)`: remove `is-error` from the element; when an
error label is present, set `display: none`. -/
def hideError (w : Wrapper) (t : ErrTarget) : Wrapper :=
  let w1 := setTargetErr w t false
  match w1.errorLabel with
  | some lbl => { w1 with errorLabel := some { lbl with visible := false } }
  | none => w1

/-- The element `showError`/`hideError` are called on by `validateInput`:
for `input.type === 'checkbox'` it is `checkbox || input`, otherwise the
input itself. -/
def errTargetOf (i : Input) (w : Wrapper) : ErrTarget :=
  if i.type == "checkbox" then
    (if w.checkboxEl.isSome then ErrTarget.checkboxVisual else ErrTarget.field)
  else ErrTarget.field

/-- The `isValid` value computed by `validateInput` (current revision):
four sequential checks, each overwriting `isValid` when its constraint is
declared; email is selected by the input's type. -/
def inputVerdict (i : Input) : Bool :=
  let v0 := true
  let v1 := if i.lengthAttr.isSome then
      validateLength i.value (jsParseInt10 (attrOrZero i.lengthAttr)) else v0
  let v2 := if i.phoneAttr then validatePhone i.value else v1
  let v3 := if i.type == "email" then validateEmail i.value else v2
  if i.checkboxAttr then validateCheckbox i else v3

/-- The `isValid` value computed by `validateInput` of the earlier revision:
same dispatch, calling that revision's length and phone rules. -/
def inputVerdict_alt (i : Input) : Bool :=
  let v0 := true
  let v1 := if i.lengthAttr.isSome then
      validateLength_alt i.value (jsParseInt10 (attrOrZero i.lengthAttr)) else v0
  let v2 := if i.phoneAttr then validatePhone_alt i.value else v1
  let v3 := if i.type == "email" then validateEmail i.value else v2
  if i.checkboxAttr then validateCheckbox i else v3

/-- The extra class toggle inside the checkbox branch of `validateInput`
(current revision): add `is-error` to `.w-checkbox-input` when errors are
shown, the field is touched or force-shown, and the check failed; otherwise
remove it (whenever the element exists). -/
def checkboxPreToggle (w : Wrapper) (i : Input) (s f isValid : Bool) : Wrapper :=
  if i.checkboxAttr then
    (if s && (i.touched || f) && !isValid && w.checkboxEl.isSome then setCheckboxErr w true
     else if w.checkboxEl.isSome then setCheckboxErr w false else w)
  else w

/-- `validateInput(wrapper, showErrors, forceShowErrors)` (current revision):
compute the verdict; toggle the checkbox visual class; then show or hide the
error presentation only when `showErrors && (data-touched || forceShowErrors)`.
Returns the verdict together with the updated wrapper state.  A wrapper
without an input returns `true` untouched. -/
def validateInput (w : Wrapper) (s f : Bool) : Bool × Wrapper :=
  match w.input with
  | none => (true, w)
  | some i =>
    let isValid := inputVerdict i
    let w1 := checkboxPreToggle w i s f isValid
    if s && (i.touched || f) then
      (if !isValid then (isValid, showError w1 (errTargetOf i w1))
       else (isValid, hideError w1 (errTargetOf i w1)))
    else (isValid, w1)

/-- The checkbox-branch toggle of the earlier revision: no touched/forced
gate, only `showErrors && !isValid && checkbox`. -/
def checkboxPreToggle_alt (w : Wrapper) (i : Input) (s isValid : Bool) : Wrapper :=
  if i.checkboxAttr then
    (if s && !isValid && w.checkboxEl.isSome then setCheckboxErr w true
     else if w.checkboxEl.isSome then setCheckboxErr w false else w)
  else w

/-- `validateInput(wrapper, showErrors)` of the earlier revision (`part_000`):
identical structure but the error presentation is gated on `showErrors`
alone — there is no touched flag and no force-show parameter. -/
def validateInput_alt (w : Wrapper) (s : Bool) : Bool × Wrapper :=
  match w.input with
  | none => (true, w)
  | some i =>
    let isValid := inputVerdict_alt i
    let w1 := checkboxPreToggle_alt w i s isValid
    if s then
      (if !isValid then (isValid, showError w1 (errTargetOf i w1))
       else (isValid, hideError w1 (errTargetOf i w1)))
    else (isValid, w1)

/-- The verdict `validateInput` returns for a wrapper (no side effects). -/
def wrapperVerdict (w : Wrapper) : Bool :=
  match w.input with
  | none => true
  | some i => inputVerdict i

/-- The submit control, with its `is-disabled` class. -/
structure SubmitButton where
  disabledClass : Bool
deriving DecidableEq

/-- A form: its `.input-wrapper` elements in document order and its optional
submit control. -/
structure Form where
  wrappers : List Wrapper
  submitButton : Option SubmitButton
deriving DecidableEq

/-- `validateForm(form, showErrors, forceShowErrors)`: validate every wrapper,
AND-fold the verdicts, then add or remove `is-disabled` on the submit control
accordingly. -/
def validateForm (F : Form) (s f : Bool) : Bool × Form :=
  let results := F.wrappers.map (fun w => validateInput w s f)
  let isFormValid := results.all (fun r => r.1)
  let newButton := F.submitButton.map (fun b => { b with disabledClass := !isFormValid })
  (isFormValid, { wrappers := results.map (fun r => r.2), submitButton := newButton })

/-- The elements with the `is-error` class contributed by one wrapper, in
document order (in the builder's checkbox markup the `.w-checkbox-input`
visual element precedes the native input). -/
def wrapperErrorElems (k : Nat) (w : Wrapper) : List (Nat × ErrTarget) :=
  (match w.checkboxEl with
   | some cb => if cb.hasErrorClass then [(k, ErrTarget.checkboxVisual)] else []
   | none => []) ++
  (match w.input with
   | some i => if i.hasErrorClass then [(k, ErrTarget.field)] else []
   | none => [])

/-- First `is-error` element at or after wrapper index `k`. -/
def firstErrorElemFrom : Nat → List Wrapper → Option (Nat × ErrTarget)
  | _, [] => none
  | k, w :: ws =>
    match wrapperErrorElems k w with
    | [] => firstErrorElemFrom (k + 1) ws
    | e :: _ => some e

/-- `form.querySelector('.is-error')`: the first element of the form carrying
the `is-error` class, if any. -/
def firstErrorElem (F : Form) : Option (Nat × ErrTarget) :=
  firstErrorElemFrom 0 F.wrappers

/-- Outcome of the submit handler: whether `preventDefault` and
`stopPropagation` ran, and which element `scrollIntoView` targeted. -/
structure SubmitOutcome where
  prevented : Bool
  stopped : Bool
  scrollTarget : Option (Nat × ErrTarget)
deriving DecidableEq

/-- The submit handler installed by `validateForms`: run
`validateForm(form, true, true)`; when invalid, prevent the event, stop its
propagation and scroll to the form's first `.is-error` element. -/
def onSubmit (F : Form) : Form × SubmitOutcome :=
  let r := validateForm F true true
  if r.1 then
    (r.2, { prevented := false, stopped := false, scrollTarget := none })
  else
    (r.2, { prevented := true, stopped := true, scrollTarget := firstErrorElem r.2 })

/-- Whether the wrapper's error label is displayed. -/
def labelShown (w : Wrapper) : Bool :=
  match w.errorLabel with
  | some lbl => lbl.visible
  | none => false

/-- Whether the wrapper has an error label at all. -/
def hasLabel (w : Wrapper) : Bool :=
  w.errorLabel.isSome

/-- Whether the element that error presentation targets for this wrapper
currently carries the `is-error` class. -/
def errClassShown (w : Wrapper) : Bool :=
  match w.input with
  | none => false
  | some i =>
    match errTargetOf i w with
    | .field => i.hasErrorClass
    | .checkboxVisual =>
      match w.checkboxEl with
      | some cb => cb.hasErrorClass
      | none => false

/-- The field's error UI is fully visible: error styling on the target
element and, when a label exists, the label displayed. -/
def errorUIVisible (w : Wrapper) : Bool :=
  errClassShown w && labelShown w

/-- The field's error is shown as far as its markup allows: error styling on
the target element, and the label displayed whenever one exists. -/
def errorShown (w : Wrapper) : Bool :=
  errClassShown w && (!hasLabel w || labelShown w)

/-- A neutral text input used to build concrete test states. -/
def baseInput : Input :=
  { value := "", type := ("text"), checked := false, lengthAttr := none,
    phoneAttr := false, checkboxAttr := false, touched := false,
    hasErrorClass := false }

/-- A wrapper with a hidden error label around a given input. -/
def wrapperOf (i : Input) : Wrapper :=
  { input := some i, checkboxEl := none,
    errorLabel := some { visible := false, textAttr := none, text := "" } }

end FormValidation

namespace FormValidation

theorem validateInput_fst (w : Wrapper) (s f : Bool) :
    (validateInput w s f).1 = wrapperVerdict w := by
  cases hw : w.input with
  | none => simp [validateInput, wrapperVerdict, hw]
  | some i =>
    simp only [validateInput, wrapperVerdict, hw]
    split
    · split <;> rfl
    · rfl

theorem labelShown_showError (w : Wrapper) (t : ErrTarget) :
    labelShown (showError w t) = hasLabel w := by
  obtain ⟨inp, cb, lbl⟩ := w
  cases t <;> cases lbl <;> rfl

theorem labelShown_hideError (w : Wrapper) (t : ErrTarget) :
    labelShown (hideError w t) = false := by
  obtain ⟨inp, cb, lbl⟩ := w
  cases t <;> cases lbl <;> rfl

theorem hasLabel_showError (w : Wrapper) (t : ErrTarget) :
    hasLabel (showError w t) = hasLabel w := by
  obtain ⟨inp, cb, lbl⟩ := w
  cases t <;> cases lbl <;> rfl

theorem errorLabel_checkboxPreToggle (w : Wrapper) (i : Input) (s f v : Bool) :
    (checkboxPreToggle w i s f v).errorLabel = w.errorLabel := by
  unfold checkboxPreToggle
  split
  · split
    · rfl
    · split <;> rfl
  · rfl

theorem input_checkboxPreToggle (w : Wrapper) (i : Input) (s f v : Bool) :
    (checkboxPreToggle w i s f v).input = w.input := by
  unfold checkboxPreToggle
  split
  · split
    · rfl
    · split <;> rfl
  · rfl

theorem checkboxElPresence_checkboxPreToggle (w : Wrapper) (i : Input) (s f v : Bool) :
    (checkboxPreToggle w i s f v).checkboxEl.isSome = w.checkboxEl.isSome := by
  unfold checkboxPreToggle
  split
  · split
    · simp [setCheckboxErr]
    · split
      · simp [setCheckboxErr]
      · rfl
  · rfl

theorem hasLabel_checkboxPreToggle (w : Wrapper) (i : Input) (s f v : Bool) :
    hasLabel (checkboxPreToggle w i s f v) = hasLabel w := by
  unfold hasLabel
  rw [errorLabel_checkboxPreToggle]

theorem labelShown_checkboxPreToggle (w : Wrapper) (i : Input) (s f v : Bool) :
    labelShown (checkboxPreToggle w i s f v) = labelShown w := by
  unfold labelShown
  rw [errorLabel_checkboxPreToggle]

end FormValidation

namespace FormValidation

theorem errClassShown_showError (w : Wrapper) (i : Input) (hi : w.input = some i) :
    errClassShown (showError w (errTargetOf i w)) = true := by
  obtain ⟨inp, cb, lbl⟩ := w
  obtain ⟨val, ty, chk, la, pa, ca, tch, hec⟩ := i
  simp only [Wrapper.input] at hi
  subst hi
  cases ht : (ty == ("checkbox")) <;> cases cb <;> cases lbl <;>
    simp [errClassShown, errTargetOf, showError, setTargetErr, setInputErr,
      setCheckboxErr, ht, labelShown, hasLabel]

theorem errClassShown_hideError (w : Wrapper) (i : Input) (hi : w.input = some i) :
    errClassShown (hideError w (errTargetOf i w)) = false := by
  obtain ⟨inp, cb, lbl⟩ := w
  obtain ⟨val, ty, chk, la, pa, ca, tch, hec⟩ := i
  simp only [Wrapper.input] at hi
  subst hi
  cases ht : (ty == ("checkbox")) <;> cases cb <;> cases lbl <;>
    simp [errClassShown, errTargetOf, hideError, setTargetErr, setInputErr,
      setCheckboxErr, ht, labelShown, hasLabel]

end FormValidation

namespace FormValidation

theorem inputVerdict_setErr (i : Input) (b : Bool) :
    inputVerdict { i with hasErrorClass := b } = inputVerdict i := by
  cases i
  rfl

theorem wrapperVerdict_showError (w : Wrapper) (t : ErrTarget) :
    wrapperVerdict (showError w t) = wrapperVerdict w := by
  obtain ⟨inp, cb, lbl⟩ := w
  cases t <;> cases inp <;> cases lbl <;>
    simp [wrapperVerdict, showError, setTargetErr, setInputErr, setCheckboxErr,
      inputVerdict_setErr]

theorem wrapperVerdict_hideError (w : Wrapper) (t : ErrTarget) :
    wrapperVerdict (hideError w t) = wrapperVerdict w := by
  obtain ⟨inp, cb, lbl⟩ := w
  cases t <;> cases inp <;> cases lbl <;>
    simp [wrapperVerdict, hideError, setTargetErr, setInputErr, setCheckboxErr,
      inputVerdict_setErr]

theorem wrapperVerdict_checkboxPreToggle (w : Wrapper) (i : Input) (s f v : Bool) :
    wrapperVerdict (checkboxPreToggle w i s f v) = wrapperVerdict w := by
  unfold wrapperVerdict
  rw [input_checkboxPreToggle]

theorem validateInput_snd_verdict (w : Wrapper) (s f : Bool) :
    wrapperVerdict (validateInput w s f).2 = wrapperVerdict w := by
  cases hw : w.input with
  | none => simp [validateInput, hw]
  | some i =>
    simp only [validateInput, hw]
    split
    · split
      · simp [wrapperVerdict_showError, wrapperVerdict_checkboxPreToggle]
      · simp [wrapperVerdict_hideError, wrapperVerdict_checkboxPreToggle]
    · simp [wrapperVerdict_checkboxPreToggle]

theorem validateForm_fst (F : Form) (s f : Bool) :
    (validateForm F s f).1 = F.wrappers.all wrapperVerdict := by
  simp only [validateForm, List.all_map]
  induction F.wrappers with
  | nil => rfl
  | cons a t ih =>
    simp [List.all_cons, ih, validateInput_fst]

theorem validateForm_wrappers (F : Form) (s f : Bool) :
    (validateForm F s f).2.wrappers = F.wrappers.map (fun w => (validateInput w s f).2) := by
  simp [validateForm]

theorem validateForm_wrappers_verdicts (F : Form) (s f : Bool) :
    (validateForm F s f).2.wrappers.all wrapperVerdict = F.wrappers.all wrapperVerdict := by
  rw [validateForm_wrappers]
  induction F.wrappers with
  | nil => rfl
  | cons a t ih =>
    simp [List.all_cons, ih, validateInput_snd_verdict]

end FormValidation

namespace FormValidation

/-- C5: the email rule accepts the value "a@b.co", rejects "a@b" (no dot after
the at sign) and rejects "a b@c.com" (contains a space). -/
theorem email_rule_examples :
    validateEmail ("a@b.co") = true ∧ validateEmail ("a@b") = false ∧
    validateEmail ("a b@c.com") = false := by
  refine ⟨by decide, by decide, by decide⟩

/-- C10: the boolean verdict returned by `validateInput` (and hence by
`validateForm`) is the same for all values of the `showErrors` and
`forceShowErrors` display flags; the flags affect only presentation state. -/
theorem verdict_independent_of_display_flags :
    (∀ (w : Wrapper) (s1 f1 s2 f2 : Bool),
       (validateInput w s1 f1).1 = (validateInput w s2 f2).1) ∧
    (∀ (F : Form) (s1 f1 s2 f2 : Bool),
       (validateForm F s1 f1).1 = (validateForm F s2 f2).1) := by
  constructor
  · intro w s1 f1 s2 f2
    rw [validateInput_fst, validateInput_fst]
  · intro F s1 f1 s2 f2
    rw [validateForm_fst, validateForm_fst]

theorem validateForm_button (F : Form) (s f : Bool) :
    (validateForm F s f).2.submitButton
      = F.submitButton.map (fun b => { b with disabledClass := !(validateForm F s f).1 }) := by
  rfl

/-- C8: after an aggregation pass the submit control's `is-disabled` class is
exactly the negated AND-fold of all current field verdicts, and running the
aggregation a second time with no field-value changes in between yields the
same form verdict and the same submit-control state as running it once. -/
theorem submit_state_and_fold_idempotent (F : Form) (s f : Bool) :
    ((validateForm F s f).2.submitButton
       = F.submitButton.map
           (fun b => { b with disabledClass := !(F.wrappers.all wrapperVerdict) })) ∧
    (validateForm (validateForm F s f).2 s f).1 = (validateForm F s f).1 ∧
    (validateForm (validateForm F s f).2 s f).2.submitButton
       = (validateForm F s f).2.submitButton := by
  have hv : (validateForm (validateForm F s f).2 s f).1 = (validateForm F s f).1 := by
    rw [validateForm_fst, validateForm_fst, validateForm_wrappers_verdicts]
  refine ⟨?_, hv, ?_⟩
  · rw [validateForm_button, validateForm_fst]
  · rw [validateForm_button, validateForm_button F s f, hv]
    cases F.submitButton <;> rfl

end FormValidation

namespace FormValidation

theorem beq_email_false {t : String} (h : t ≠ ("email")) : (t == ("email")) = false := by
  simpa using h

/-- C3 (amended): for every value `V` and parsed minimum `M`, the current
revision's length rule (through the full `validateInput` dispatch) equals
`len(trim(V)) > M`, while the earlier revision's equals `len(trim(V)) >= M`;
the comparison operator is NOT consistent between the two revisions in the
repository (see the counterexample `length_rule_operator_drift`). -/
theorem length_rule_per_revision (value s : String) (m : Int) (i : Input)
    (hp : jsParseInt10 s = some m) (hs : s ≠ "")
    (hv : i.value = value) (ha : i.lengthAttr = some s)
    (hph : i.phoneAttr = false) (hty : i.type ≠ ("email")) (hcb : i.checkboxAttr = false) :
    inputVerdict i = decide (m < ((jsTrim value).length : Int)) ∧
    inputVerdict_alt i = decide (m ≤ ((jsTrim value).length : Int)) := by
  have hty' := beq_email_false hty
  have hs' : (s == "") = false := by simpa using hs
  have hz : attrOrZero (some s) = s := by simp [attrOrZero, hs']
  subst hv
  constructor
  · simp [inputVerdict, ha, hph, hty', hcb, hz, hp, validateLength]
  · simp [inputVerdict_alt, ha, hph, hty', hcb, hz, hp, validateLength_alt]

/-- C3 counterexample: at value "ab" with configured minimum 2 the two
revisions disagree (the current `>` rule fails, the earlier `>=` rule passes),
so no single comparison operator is used consistently across the program. -/
theorem length_rule_operator_drift :
    inputVerdict { baseInput with value := ("ab"), lengthAttr := some ("2") } = false ∧
    inputVerdict_alt { baseInput with value := ("ab"), lengthAttr := some ("2") } = true := by
  refine ⟨by decide, by decide⟩

/-- C3 witness: the per-revision characterization applied at the concrete
value "hi" with minimum attribute "2". -/
theorem length_rule_per_revision_witness :
    inputVerdict { baseInput with value := ("hi"), lengthAttr := some ("2") }
      = decide ((2 : Int) < (((jsTrim ("hi")).length) : Int)) ∧
    inputVerdict_alt { baseInput with value := ("hi"), lengthAttr := some ("2") }
      = decide ((2 : Int) ≤ (((jsTrim ("hi")).length) : Int)) :=
  length_rule_per_revision ("hi") ("2") 2 _ (by decide) (by decide) rfl rfl rfl (by decide) rfl

/-- C4 (amended): in the current revision the phone verdict is computed by
removing all non-digit characters and comparing the remaining digit count
with the threshold 10 — the digit count alone determines the verdict — and a
phone-marked field's dispatched verdict equals that rule.  The earlier
revision's phone rule is a structural regex for which separator placement
does matter (see `phone_alt_separator_sensitive`). -/
theorem phone_rule_digit_count :
    (∀ value, validatePhone value = decide (10 ≤ digitCount value)) ∧
    (∀ v w, digitCount v = digitCount w → validatePhone v = validatePhone w) ∧
    (∀ i : Input, i.phoneAttr = true → i.type ≠ ("email") → i.checkboxAttr = false →
       inputVerdict i = validatePhone i.value) := by
  refine ⟨fun value => rfl, fun v w h => by simp [validatePhone, h], fun i hp hty hcb => ?_⟩
  have hty' := beq_email_false hty
  simp [inputVerdict, hp, hty', hcb]

/-- C4 witness: the dispatch equation applied at the concrete phone value
"12 34567890". -/
theorem phone_rule_digit_count_witness :
    inputVerdict { baseInput with value := ("12 34567890"), phoneAttr := true }
      = validatePhone ("12 34567890") :=
  phone_rule_digit_count.2.2 _ rfl (by decide) rfl

/-- C4 counterexample: two values with the same digit count (10) on which the
earlier revision's phone rule returns different verdicts, refuting the claim
that only the digit count affects the verdict in every revision. -/
theorem phone_alt_separator_sensitive :
    digitCount ("12 34567890") = digitCount ("1234567890") ∧
    validatePhone_alt ("1234567890") = true ∧
    validatePhone_alt ("12 34567890") = false := by
  refine ⟨by decide, by decide, by decide⟩

/-- C6: exactly one validation rule determines a field's verdict, selected by
the declared constraint attribute (email by the field's type): whenever
exactly one of the four selectors holds, the dispatched verdict equals that
single rule's result, so no other rule influences it. -/
theorem single_rule_dispatch (i : Input) :
    (i.lengthAttr.isSome = true → i.phoneAttr = false → i.type ≠ ("email") →
       i.checkboxAttr = false →
       inputVerdict i = validateLength i.value (jsParseInt10 (attrOrZero i.lengthAttr))) ∧
    (i.lengthAttr = none → i.phoneAttr = true → i.type ≠ ("email") →
       i.checkboxAttr = false → inputVerdict i = validatePhone i.value) ∧
    (i.lengthAttr = none → i.phoneAttr = false → i.type = ("email") →
       i.checkboxAttr = false → inputVerdict i = validateEmail i.value) ∧
    (i.lengthAttr = none → i.phoneAttr = false → i.type ≠ ("email") →
       i.checkboxAttr = true → inputVerdict i = validateCheckbox i) := by
  refine ⟨fun h1 h2 h3 h4 => ?_, fun h1 h2 h3 h4 => ?_, fun h1 h2 h3 h4 => ?_,
    fun h1 h2 h3 h4 => ?_⟩
  · have h3' := beq_email_false h3
    simp [inputVerdict, h1, h2, h3', h4]
  · have h3' := beq_email_false h3
    simp [inputVerdict, h1, h2, h3', h4]
  · have h3' : (i.type == ("email")) = true := by simpa using h3
    simp [inputVerdict, h1, h2, h3', h4]
  · have h3' := beq_email_false h3
    simp [inputVerdict, h1, h2, h3', h4]

/-- C6 witness: the email conjunct applied to a concrete email-typed input. -/
theorem single_rule_dispatch_witness :
    inputVerdict { baseInput with value := ("a@b.co"), type := ("email") }
      = validateEmail ("a@b.co") :=
  (single_rule_dispatch _).2.2.1 rfl rfl rfl rfl

/-- C7 (amended): a missing or empty minimum-length attribute defaults to
zero, but a non-numeric attribute value parses to `NaN` and the length rule
then fails for every field value — the field is NOT validated as if the
minimum were 0 (see the counterexample `malformed_min_not_zero`). -/
theorem malformed_min_length_behavior :
    (∀ (i : Input) (s : String), i.lengthAttr = some s → s ≠ "" → jsParseInt10 s = none →
       i.phoneAttr = false → i.type ≠ ("email") → i.checkboxAttr = false →
       inputVerdict i = false) ∧
    (∀ i : Input, i.lengthAttr = some ("") →
       i.phoneAttr = false → i.type ≠ ("email") → i.checkboxAttr = false →
       inputVerdict i = validateLength i.value (some 0)) := by
  constructor
  · intro i s ha hs hp hph hty hcb
    have hty' := beq_email_false hty
    have hs' : (s == "") = false := by simpa using hs
    have hz : attrOrZero (some s) = s := by simp [attrOrZero, hs']
    simp [inputVerdict, ha, hph, hty', hcb, hz, hp, validateLength]
  · intro i ha hph hty hcb
    have hty' := beq_email_false hty
    have hz : attrOrZero (some ("")) = ("0") := by simp [attrOrZero]
    have hp0 : jsParseInt10 ("0") = some 0 := by decide
    simp [inputVerdict, ha, hph, hty', hcb, hz, hp0]

/-- C7 counterexample: with the non-numeric minimum-length attribute "abc"
and value "x" the code's verdict is `false`, whereas a zero minimum would
accept "x"; so malformed configuration does not default to zero. -/
theorem malformed_min_not_zero :
    inputVerdict { baseInput with value := ("x"), lengthAttr := some ("abc") } = false ∧
    validateLength ("x") (some 0) = true := by
  refine ⟨by decide, by decide⟩

/-- C7 witness: the NaN conjunct applied at a concrete non-numeric
attribute. -/
theorem malformed_min_length_behavior_witness :
    inputVerdict { baseInput with value := ("hello"), lengthAttr := some ("??") } = false :=
  malformed_min_length_behavior.1 _ ("??") rfl (by decide) (by decide) rfl (by decide) rfl

end FormValidation

namespace FormValidation

theorem errorLabel_none_showError (w : Wrapper) (t : ErrTarget)
    (h : w.errorLabel = none) : (showError w t).errorLabel = none := by
  obtain ⟨inp, cb, lbl⟩ := w
  simp only [Wrapper.errorLabel] at h
  subst h
  cases t <;> rfl

theorem errorLabel_none_hideError (w : Wrapper) (t : ErrTarget)
    (h : w.errorLabel = none) : (hideError w t).errorLabel = none := by
  obtain ⟨inp, cb, lbl⟩ := w
  simp only [Wrapper.errorLabel] at h
  subst h
  cases t <;> rfl

theorem errorLabel_none_validateInput (w : Wrapper) (s f : Bool)
    (h : w.errorLabel = none) : (validateInput w s f).2.errorLabel = none := by
  cases hw : w.input with
  | none => simpa [validateInput, hw] using h
  | some i =>
    have h1 : (checkboxPreToggle w i s f (inputVerdict i)).errorLabel = none := by
      rw [errorLabel_checkboxPreToggle]; exact h
    simp only [validateInput, hw]
    split
    · split
      · simpa using errorLabel_none_showError _ _ h1
      · simpa using errorLabel_none_hideError _ _ h1
    · simpa using h1

/-- C9: a wrapper containing no input or textarea element validates to a pass
verdict with its state untouched, and when a wrapper has no error-label
element the label-presentation step is skipped (the label stays absent)
without affecting the field's verdict — fail-open behaviour. -/
theorem missing_dom_fail_open :
    (∀ (cb : Option CheckboxEl) (lbl : Option ErrorLabel) (s f : Bool),
       validateInput { input := none, checkboxEl := cb, errorLabel := lbl } s f
         = (true, { input := none, checkboxEl := cb, errorLabel := lbl })) ∧
    (∀ (w : Wrapper) (s f : Bool), w.errorLabel = none →
       (validateInput w s f).1 = wrapperVerdict w ∧
       (validateInput w s f).2.errorLabel = none) := by
  constructor
  · intro cb lbl s f
    rfl
  · intro w s f h
    exact ⟨validateInput_fst w s f, errorLabel_none_validateInput w s f h⟩

/-- C9 witness: the no-label conjunct applied at a concrete wrapper without
an error label. -/
theorem missing_dom_fail_open_witness :
    (validateInput { input := some baseInput, checkboxEl := none, errorLabel := none } true true).1
      = wrapperVerdict { input := some baseInput, checkboxEl := none, errorLabel := none } ∧
    (validateInput { input := some baseInput, checkboxEl := none, errorLabel := none } true true).2.errorLabel
      = none :=
  missing_dom_fail_open.2 _ true true rfl

end FormValidation

namespace FormValidation

theorem errorLabel_checkboxPreToggle_alt (w : Wrapper) (i : Input) (s v : Bool) :
    (checkboxPreToggle_alt w i s v).errorLabel = w.errorLabel := by
  unfold checkboxPreToggle_alt
  split
  · split
    · rfl
    · split <;> rfl
  · rfl

theorem input_checkboxPreToggle_alt (w : Wrapper) (i : Input) (s v : Bool) :
    (checkboxPreToggle_alt w i s v).input = w.input := by
  unfold checkboxPreToggle_alt
  split
  · split
    · rfl
    · split <;> rfl
  · rfl

theorem hasLabel_checkboxPreToggle_alt (w : Wrapper) (i : Input) (s v : Bool) :
    hasLabel (checkboxPreToggle_alt w i s v) = hasLabel w := by
  unfold hasLabel
  rw [errorLabel_checkboxPreToggle_alt]

/-- C1 (amended): in the current revision a validation pass updates a field's
error UI exactly when `showErrors && (touched || forceShowErrors)`: under that
gate the error UI (error styling on the presentation target plus a displayed
label) is visible after the pass if and only if the rule failed (and a label
exists); when the gate is off, the pass leaves the label's visibility
unchanged, so an untouched, unforced field never gets a hidden label revealed.
The earlier revision has no touched/forced gate: any error-displaying pass
shows the label of a failing field even if untouched (see the counterexample
`untouched_label_shown_in_alt_revision`). -/
theorem errorUI_gate_characterization (w : Wrapper) (i : Input) (s f : Bool)
    (hi : w.input = some i) :
    ((s && (i.touched || f)) = true →
       errorUIVisible (validateInput w s f).2 = (!inputVerdict i && hasLabel w)) ∧
    ((s && (i.touched || f)) = false →
       labelShown (validateInput w s f).2 = labelShown w) ∧
    ((validateInput_alt w true).1 = false → hasLabel w = true →
       labelShown (validateInput_alt w true).2 = true) := by
  refine ⟨?_, ?_, ?_⟩
  · intro hg
    cases hv : inputVerdict i with
    | false =>
      have hi1 : (checkboxPreToggle w i s f false).input = some i := by
        rw [input_checkboxPreToggle]; exact hi
      simp [validateInput, hi, hg, hv, errorUIVisible,
        errClassShown_showError _ i hi1, labelShown_showError, hasLabel_checkboxPreToggle]
    | true =>
      have hi1 : (checkboxPreToggle w i s f true).input = some i := by
        rw [input_checkboxPreToggle]; exact hi
      simp [validateInput, hi, hg, hv, errorUIVisible,
        errClassShown_hideError _ i hi1]
  · intro hg
    simp [validateInput, hi, hg, labelShown_checkboxPreToggle]
  · intro hinv hl
    have hfst : (validateInput_alt w true).1 = inputVerdict_alt i := by
      simp only [validateInput_alt, hi]
      split
      · split <;> rfl
      · rfl
    rw [hfst] at hinv
    simp [validateInput_alt, hi, hinv, labelShown_showError,
      hasLabel_checkboxPreToggle_alt, hl]

end FormValidation

namespace FormValidation

/-- C1 witness: the gate-on characterization applied to a concrete touched,
failing field. -/
theorem errorUI_gate_characterization_witness :
    errorUIVisible
        (validateInput (wrapperOf { baseInput with lengthAttr := some ("3"), touched := true })
          true false).2
      = (!inputVerdict { baseInput with lengthAttr := some ("3"), touched := true } &&
         hasLabel (wrapperOf { baseInput with lengthAttr := some ("3"), touched := true })) :=
  (errorUI_gate_characterization _ _ true false rfl).1 (by decide)

/-- C1 counterexample: in the earlier revision a failing field that is
untouched (and with no force-show requested) still gets its error label shown
by an ordinary validation pass, refuting the claimed invariant as stated. -/
theorem untouched_label_shown_in_alt_revision :
    ((wrapperOf { baseInput with lengthAttr := some ("3") }).input.map Input.touched
       = some false) ∧
    (validateInput_alt (wrapperOf { baseInput with lengthAttr := some ("3") }) true).1 = false ∧
    labelShown (validateInput_alt (wrapperOf { baseInput with lengthAttr := some ("3") }) true).2
       = true := by
  refine ⟨by decide, by decide, by decide⟩

theorem forced_pass_shows_error (w : Wrapper) (hv : wrapperVerdict w = false) :
    errClassShown (validateInput w true true).2 = true ∧
    labelShown (validateInput w true true).2 = hasLabel w := by
  cases hw : w.input with
  | none => rw [wrapperVerdict, hw] at hv; exact absurd hv (by simp)
  | some i =>
    have hvi : inputVerdict i = false := by rw [wrapperVerdict, hw] at hv; exact hv
    have hi1 : (checkboxPreToggle w i true true false).input = some i := by
      rw [input_checkboxPreToggle]; exact hw
    constructor
    · simp [validateInput, hw, hvi, errClassShown_showError _ i hi1]
    · simp [validateInput, hw, hvi, labelShown_showError, hasLabel_checkboxPreToggle]

theorem forced_pass_errorShown (w : Wrapper) (hv : wrapperVerdict w = false) :
    errorShown (validateInput w true true).2 = true := by
  cases hw : w.input with
  | none => rw [wrapperVerdict, hw] at hv; exact absurd hv (by simp)
  | some i =>
    have hvi : inputVerdict i = false := by rw [wrapperVerdict, hw] at hv; exact hv
    have hi1 : (checkboxPreToggle w i true true false).input = some i := by
      rw [input_checkboxPreToggle]; exact hw
    simp [validateInput, hw, hvi, errorShown, errClassShown_showError _ i hi1,
      labelShown_showError, hasLabel_showError, hasLabel_checkboxPreToggle]

end FormValidation

namespace FormValidation

theorem wrapperErrorElems_ne_nil (k : Nat) (w : Wrapper)
    (h : errClassShown w = true) : wrapperErrorElems k w ≠ [] := by
  obtain ⟨inp, cb, lbl⟩ := w
  cases inp with
  | none => simp [errClassShown] at h
  | some i =>
    cases ht : (i.type == ("checkbox")) <;> cases cb <;>
      simp [errClassShown, errTargetOf, ht] at h <;>
      simp [wrapperErrorElems, h]

theorem firstErrorElemFrom_isSome (ws : List Wrapper)
    (h : ∃ w ∈ ws, errClassShown w = true) :
    ∀ k, (firstErrorElemFrom k ws).isSome = true := by
  induction ws with
  | nil => simp at h
  | cons a t ih =>
    intro k
    obtain ⟨w, hw, hc⟩ := h
    rcases List.mem_cons.mp hw with h1 | h2
    · subst h1
      have hne := wrapperErrorElems_ne_nil k w hc
      simp only [firstErrorElemFrom]
      cases he : wrapperErrorElems k w with
      | nil => exact absurd he hne
      | cons e es => rfl
    · simp only [firstErrorElemFrom]
      cases he : wrapperErrorElems k a with
      | nil => exact ih ⟨w, h2, hc⟩ (k + 1)
      | cons e es => rfl

theorem exists_invalid_of_all_false (ws : List Wrapper)
    (h : ws.all wrapperVerdict = false) : ∃ w ∈ ws, wrapperVerdict w = false := by
  induction ws with
  | nil => simp [List.all_nil] at h
  | cons a t ih =>
    rw [List.all_cons] at h
    cases ha : wrapperVerdict a with
    | false => exact ⟨a, List.mem_cons_self a t, ha⟩
    | true =>
      rw [ha, Bool.true_and] at h
      obtain ⟨w, hw, hc⟩ := ih h
      exact ⟨w, List.mem_cons_of_mem a hw, hc⟩

/-- C2: on a submission attempt, if at least one field's rule fails then the
submit event is prevented and its propagation stopped, every failing field's
error is force-shown, and the scroll target is the first element of the form
carrying the `is-error` class (which exists); if every field passes, the
submission is not prevented. -/
theorem submit_validation_gate (F : Form) :
    (F.wrappers.all wrapperVerdict = false →
       (onSubmit F).2.prevented = true ∧
       (onSubmit F).2.stopped = true ∧
       (onSubmit F).2.scrollTarget = firstErrorElem (onSubmit F).1 ∧
       (firstErrorElem (onSubmit F).1).isSome = true ∧
       (onSubmit F).1.wrappers = F.wrappers.map (fun w => (validateInput w true true).2) ∧
       (∀ w ∈ F.wrappers, wrapperVerdict w = false →
          errorShown (validateInput w true true).2 = true)) ∧
    (F.wrappers.all wrapperVerdict = true → (onSubmit F).2.prevented = false) := by
  constructor
  · intro h
    have hr : (validateForm F true true).1 = false := by rw [validateForm_fst]; exact h
    have hws : (validateForm F true true).2.wrappers
        = F.wrappers.map (fun w => (validateInput w true true).2) :=
      validateForm_wrappers F true true
    have hsub : (onSubmit F).1 = (validateForm F true true).2 := by
      simp [onSubmit, hr]
    refine ⟨by simp [onSubmit, hr], by simp [onSubmit, hr], by simp [onSubmit, hr], ?_, ?_, ?_⟩
    · rw [hsub]
      obtain ⟨w, hw, hc⟩ := exists_invalid_of_all_false F.wrappers h
      have hmem : (validateInput w true true).2 ∈ (validateForm F true true).2.wrappers := by
        rw [hws]; exact List.mem_map_of_mem _ hw
      have hcls : errClassShown (validateInput w true true).2 = true :=
        (forced_pass_shows_error w hc).1
      exact firstErrorElemFrom_isSome _ ⟨_, hmem, hcls⟩ 0
    · rw [hsub]; exact hws
    · intro w hw hc
      exact forced_pass_errorShown w hc
  · intro h
    have hr : (validateForm F true true).1 = true := by rw [validateForm_fst]; exact h
    simp [onSubmit, hr]

/-- C2 witness: the blocking branch applied to a concrete one-field invalid
form. -/
theorem submit_validation_gate_witness :
    (onSubmit { wrappers := [wrapperOf { baseInput with lengthAttr := some ("3") }],
                submitButton := some { disabledClass := false } }).2.prevented = true :=
  ((submit_validation_gate _).1 (by decide)).1

end FormValidation
